import Mathlib

/-!
Verification of the startup supervisor (`startup_manager.py`) of the
`zj_humanoid_utils` repository, by a shallow embedding of the class
`StartupManager` into Lean.

Modelling conventions:
* `time.time()` is modelled by an iteration-indexed clock `clk : Nat → Int`
  supplied by the environment: every reading of the wall clock made during
  the i-th iteration of the readiness polling loop returns `clk i`
  (the sub-second drift between readings inside one loop body plays no
  role in any property verified here).
* The subprocess interaction of `check_robot_state` (the `rostopic` call)
  is modelled by an oracle `probe : Nat → Option String` giving the value
  the i-th call returns: `some v` when a `state:` line was parsed (in which
  case the code also records the read time), `none` on every failure path.
  The text parsing itself is modelled separately, on `List Char`,
  mirroring the Python string operations `split` and `strip`.
* `start_robot_state_launch` succeeding or failing inside the n-th call of
  `restart_robot_state_launch` is modelled by an oracle `restartOk : Nat → Bool`.
-/

namespace StartupManager

/-- Constant `STATE_CHECK_TIMEOUT = 600`: overall readiness deadline in time units. -/
def STATE_CHECK_TIMEOUT : Int := 600

/-- Constant `STATE_READ_TIMEOUT = 15`: staleness threshold in time units. -/
def STATE_READ_TIMEOUT : Int := 15

/-- Constant `MAX_RESTART_ATTEMPTS = 3`: maximum number of restart attempts. -/
def MAX_RESTART_ATTEMPTS : Nat := 3

/-- Constant `CHECK_INTERVAL = 1`: sleep between polling iterations. -/
def CHECK_INTERVAL : Int := 1

/-- Timeout of the bounded wait after a graceful interrupt signal
(`process.wait(timeout=5)`). -/
def TERM_WAIT : Int := 5

/-- Embedding of `StartupManager.check_state_read_timeout`:

    if self.last_successful_read_time is None: return False
    elapsed = time.time() - self.last_successful_read_time
    if elapsed > self.STATE_READ_TIMEOUT: return True
    return False

`lastRead` is the value of `self.last_successful_read_time`, `now` the
value `time.time()` returns at the call. -/
def check_state_read_timeout (lastRead : Option Int) (now : Int) : Bool :=
  match lastRead with
  | none => false
  | some t => STATE_READ_TIMEOUT < now - t

/-- The mutable fields of `StartupManager` that the readiness polling loop
`wait_for_state` reads and writes, together with its local variables.
`startTime` is the local `start_time`, `lastRead` is
`self.last_successful_read_time`, `restartCount` is `self.restart_count`
and `consecFails` is the local `consecutive_failures`. -/
structure WaitSt where
  startTime : Int
  lastRead : Option Int
  restartCount : Nat
  consecFails : Nat
  deriving DecidableEq, Repr

/-- The environment of one run of the polling loop: `clk i` is the wall
clock during iteration `i`, `probe i` the value the i-th call of
`check_robot_state` returns, and `restartOk n` tells whether the
`start_robot_state_launch` call made by the n-th restart attempt succeeds. -/
structure LoopEnv where
  clk : Nat → Int
  probe : Nat → Option String
  restartOk : Nat → Bool

/-- Embedding of `StartupManager.restart_robot_state_launch`:

    self.restart_count += 1
    if self.restart_count > self.MAX_RESTART_ATTEMPTS: return False
    ... terminate existing process ...
    success = self.start_robot_state_launch()
    if success: self.last_successful_read_time = time.time()
    return success

`launchOk` is the outcome of the inner `start_robot_state_launch` call and
`now` the wall clock. The result is `(returned value, whether a launch was
attempted, new state)`: when the counter has passed the maximum the
function returns before `start_robot_state_launch` is ever called. -/
def restart_robot_state_launch (launchOk : Bool) (now : Int) (s : WaitSt) :
    Bool × Bool × WaitSt :=
  let rc := s.restartCount + 1
  if MAX_RESTART_ATTEMPTS < rc then
    (false, false, { s with restartCount := rc })
  else if launchOk then
    (true, true, { s with restartCount := rc, lastRead := some now })
  else
    (false, true, { s with restartCount := rc })

/-- The three places the loop of `wait_for_state` can exit from:
`reached` is the `return True` when the probe yields the target state,
`restartFail` the `return False` after `restart_robot_state_launch`
returned `False`, and `deadline` the fall-through `return False` when the
`while` condition fails. -/
inductive LoopExit where
  | reached
  | restartFail
  | deadline
  deriving DecidableEq, Repr, Fintype

/-- The outcome of one iteration of the `wait_for_state` loop body
(including the `while` condition check that guards it): `out = some e`
means the loop returned at this iteration, `next` is the state afterwards,
`probed` tells whether `check_robot_state` was called this iteration and
`restarted` whether a restart attempt was recorded (the counter
incremented) this iteration. -/
structure StepRes where
  out : Option LoopExit
  next : WaitSt
  probed : Bool
  restarted : Bool
  deriving DecidableEq, Repr

/-- One iteration of the loop of `wait_for_state` (lines 188-218):

    while time.time() - start_time < self.STATE_CHECK_TIMEOUT:
        if self.check_state_read_timeout():
            if not self.restart_robot_state_launch(): return False
            consecutive_failures = 0
            start_time = time.time()
            continue
        state = self.check_robot_state()
        if state == target_state: return True
        elif state is None: consecutive_failures += 1
        else: consecutive_failures = 0
        time.sleep(self.CHECK_INTERVAL)
    return False

A successful `check_robot_state` call (one returning `some v`) records
`self.last_successful_read_time = time.time()` as its side effect; a
failed one leaves it untouched. The `consecutive_failures >=
max_consecutive_failures` branch of the source only emits a log line,
so it does not appear in the state transition. -/
def waitStep (E : LoopEnv) (target : String) (i : Nat) (s : WaitSt) : StepRes :=
  let t := E.clk i
  if STATE_CHECK_TIMEOUT ≤ t - s.startTime then
    ⟨some .deadline, s, false, false⟩
  else if check_state_read_timeout s.lastRead t then
    let r := restart_robot_state_launch (E.restartOk (s.restartCount + 1)) t s
    if r.1 then
      ⟨none, { r.2.2 with consecFails := 0, startTime := t }, false, true⟩
    else
      ⟨some .restartFail, r.2.2, false, true⟩
  else
    match E.probe i with
    | some v =>
      if v = target then
        ⟨some .reached, { s with lastRead := some t }, true, false⟩
      else
        ⟨none, { s with lastRead := some t, consecFails := 0 }, true, false⟩
    | none =>
      ⟨none, { s with consecFails := s.consecFails + 1 }, true, false⟩

/-- The loop of `wait_for_state`, iterated from iteration `i` in state `s`
with explicit fuel (the source loop terminates because the wall clock
advances past the deadline; fuel makes the recursion structural). The
result is `some (e, j, s')` when the loop returned at iteration `j` via
exit `e` leaving state `s'`, and `none` when the fuel ran out first. -/
def waitAux (E : LoopEnv) (target : String) :
    Nat → Nat → WaitSt → Option (LoopExit × Nat × WaitSt)
  | 0, _, _ => none
  | fuel + 1, i, s =>
    let r := waitStep E target i s
    match r.out with
    | some e => some (e, i, r.next)
    | none => waitAux E target fuel (i + 1) r.next

/-- Embedding of `StartupManager.wait_for_state` (target state `'5'` in
the run): initialisation

    start_time = time.time()
    ...
    self.last_successful_read_time = time.time()

followed by the loop. `self.restart_count` is `0` at entry, set by
`__init__` and touched nowhere else before `wait_for_state` is called. -/
def wait_for_state (E : LoopEnv) (target : String) (fuel : Nat) :
    Option (LoopExit × Nat × WaitSt) :=
  waitAux E target fuel 0 ⟨E.clk 0, some (E.clk 0), 0, 0⟩

/-- Python `str.split(sep)` for a one-character separator, on the
character-list representation of strings: splits at every occurrence of
`sep`, keeping empty pieces, so the result always has one more element
than there are occurrences of `sep`. -/
def pySplit (sep : Char) : List Char → List (List Char)
  | [] => [[]]
  | c :: rest =>
    match pySplit sep rest with
    | [] => [[]]
    | h :: t => if c = sep then [] :: h :: t else (c :: h) :: t

/-- Python `str.strip()` on the character-list representation: removes
leading and trailing whitespace. -/
def pyStrip (l : List Char) : List Char :=
  ((l.dropWhile Char.isWhitespace).reverse.dropWhile Char.isWhitespace).reverse

/-- The line scan of `check_robot_state` (lines 95-103) over the list of
lines of the probe output:

    for line in output.split('\n'):
        if line.startswith('state:'):
            state_value = line.split(':')[1].strip()
            ...
            return state_value
    return None

The extracted value is piece `[1]` of the first matching line split at
every colon, stripped. -/
def parse_state_lines (lines : List (List Char)) : Option (List Char) :=
  match lines with
  | [] => none
  | l :: rest =>
    if ("state:".data).isPrefixOf l then
      some (pyStrip ((pySplit ':' l).getD 1 []))
    else
      parse_state_lines rest

/-- The full parsing pipeline of `check_robot_state` on a successful
`rostopic` invocation: `output = result.stdout.strip()`, split into lines,
then the `state:` line scan. -/
def check_robot_state_parse (stdout : List Char) : Option (List Char) :=
  parse_state_lines (pySplit '\n' (pyStrip stdout))

/-- The phases of `StartupManager.run` in source order: the initial
`start_robot_state_launch` call, the `wait_for_state` polling loop, the
`start_main_launch` call, and the monitoring loop. -/
inductive Phase where
  | initLaunch
  | waitPhase
  | mainLaunch
  | monitor
  deriving DecidableEq, Repr, Fintype

/-- The two process handles the manager owns:
`self.robot_state_process` and `self.main_launch_process`. -/
inductive HandleId where
  | robotState
  | mainLaunch
  deriving DecidableEq, Repr, Fintype

/-- The observable process-lifecycle actions of the shutdown sequence:
sending `SIGINT`, the bounded `wait(timeout=...)`, and `kill()`. -/
inductive Act where
  | sigint (h : HandleId)
  | awaitExit (h : HandleId) (timeout : Int)
  | kill (h : HandleId)
  deriving DecidableEq, Repr

/-- The termination of one handle inside `cleanup` (lines 273-290):

    process.send_signal(signal.SIGINT)
    process.wait(timeout=5)        # except: process.kill()

`graceful` tells whether the bounded wait succeeds; on failure the handle
is killed. -/
def terminateHandle (h : HandleId) (graceful : Bool) : List Act :=
  [Act.sigint h, Act.awaitExit h TERM_WAIT] ++ if graceful then [] else [Act.kill h]

/-- Embedding of `StartupManager.cleanup`: each of the two handles, when
it is not `None`, is terminated in turn; `rs`/`mp` are `none` when the
corresponding handle was never created and `some g` when it exists and
exits gracefully within the bounded wait iff `g`. -/
def cleanup (rs mp : Option Bool) : List Act :=
  (match rs with
   | none => []
   | some g => terminateHandle HandleId.robotState g) ++
  (match mp with
   | none => []
   | some g => terminateHandle HandleId.mainLaunch g)

/-- A log line: severity level and (static part of the) message. -/
structure LogEntry where
  level : String
  msg : String
  deriving DecidableEq, Repr

/-- The environment of one `run()` call. `initLaunchOk` is whether the
initial `start_robot_state_launch` succeeds, `waitExit` which exit the
`wait_for_state` loop takes, `mainLaunchOk` whether `start_main_launch`
succeeds. `interrupt`/`crash` name the phase during which a
`KeyboardInterrupt` / an unexpected exception is raised, if any (an
interrupt, when present, preempts the rest of that phase). `rsGraceful`
and `mainGraceful` say whether each handle exits within the bounded wait
of `cleanup`. -/
structure RunEnv where
  initLaunchOk : Bool
  waitExit : LoopExit
  mainLaunchOk : Bool
  interrupt : Option Phase
  crash : Option Phase
  rsGraceful : Bool
  mainGraceful : Bool
  deriving DecidableEq, Repr

/-- How the `try` block of `run` ends: a `return code`, a
`KeyboardInterrupt` propagating out, or another exception propagating
out. -/
inductive BodyOut where
  | ret (code : Nat)
  | ki
  | exn
  deriving DecidableEq, Repr

/-- The body of `run` (the `try` block, lines 294-326), phase by phase:

    if not self.start_robot_state_launch(): return 1
    if not self.wait_for_state(target_state='5'): return 1
    if not self.start_main_launch(): return 1
    while True: ... break on child exit ...
    return 0

An interrupt or crash during a phase aborts the body there. -/
def runBody (env : RunEnv) : BodyOut :=
  if env.interrupt = some Phase.initLaunch then BodyOut.ki
  else if env.crash = some Phase.initLaunch then BodyOut.exn
  else if !env.initLaunchOk then BodyOut.ret 1
  else if env.interrupt = some Phase.waitPhase then BodyOut.ki
  else if env.crash = some Phase.waitPhase then BodyOut.exn
  else if env.waitExit ≠ LoopExit.reached then BodyOut.ret 1
  else if env.interrupt = some Phase.mainLaunch then BodyOut.ki
  else if env.crash = some Phase.mainLaunch then BodyOut.exn
  else if !env.mainLaunchOk then BodyOut.ret 1
  else if env.interrupt = some Phase.monitor then BodyOut.ki
  else if env.crash = some Phase.monitor then BodyOut.exn
  else BodyOut.ret 0

/-- Whether `self.robot_state_process` holds a handle when `run` reaches
its `finally` block: the handle exists iff the initial
`subprocess.Popen` of `start_robot_state_launch` was executed and did not
raise. -/
def rsHandle (env : RunEnv) : Option Bool :=
  if env.interrupt = some Phase.initLaunch ∨ env.crash = some Phase.initLaunch ∨
      !env.initLaunchOk then
    none
  else
    some env.rsGraceful

/-- Whether `self.main_launch_process` holds a handle when `run` reaches
its `finally` block: the handle exists iff control got past the
`wait_for_state` phase and the `Popen` of `start_main_launch` did not
raise. -/
def mainHandle (env : RunEnv) : Option Bool :=
  if env.interrupt = some Phase.initLaunch ∨ env.crash = some Phase.initLaunch ∨
      !env.initLaunchOk ∨
      env.interrupt = some Phase.waitPhase ∨ env.crash = some Phase.waitPhase ∨
      env.waitExit ≠ LoopExit.reached ∨
      env.interrupt = some Phase.mainLaunch ∨ env.crash = some Phase.mainLaunch ∨
      !env.mainLaunchOk then
    none
  else
    some env.mainGraceful

/-- The value `run` returns: the `try` block result, with the two
`except` clauses mapping `KeyboardInterrupt` to `0` and any other
exception to `1`. -/
def runExitCode (env : RunEnv) : Nat :=
  match runBody env with
  | BodyOut.ret c => c
  | BodyOut.ki => 0
  | BodyOut.exn => 1

/-- The decision-path log lines `run` and its callees emit, keyed by the
body outcome (the per-iteration polling INFO/DEBUG lines and the banner
lines are elided: no claim concerns them). Each failing phase logs at
ERROR level before `run` returns. -/
def runLogs (env : RunEnv) : List LogEntry :=
  (if env.interrupt = some Phase.initLaunch ∨ env.crash = some Phase.initLaunch then []
   else if !env.initLaunchOk then
     [⟨"ERROR", "Failed to start robot_state.launch"⟩]
   else if env.interrupt = some Phase.waitPhase ∨ env.crash = some Phase.waitPhase then []
   else if env.waitExit = LoopExit.deadline then
     [⟨"ERROR", "Timeout waiting for state"⟩,
      ⟨"ERROR", "Failed to reach target state, aborting startup"⟩]
   else if env.waitExit = LoopExit.restartFail then
     [⟨"ERROR", "Failed to restart robot_state.launch, aborting"⟩,
      ⟨"ERROR", "Failed to reach target state, aborting startup"⟩]
   else if env.interrupt = some Phase.mainLaunch ∨ env.crash = some Phase.mainLaunch then []
   else if !env.mainLaunchOk then
     [⟨"ERROR", "Failed to start robot_startUp.launch"⟩]
   else []) ++
  (match runBody env with
   | BodyOut.ret _ => []
   | BodyOut.ki => [⟨"INFO", "Received interrupt signal"⟩]
   | BodyOut.exn => [⟨"ERROR", "Unexpected error"⟩])

/-- The observable result of one `run()` call. -/
structure RunRes where
  exit : Nat
  logs : List LogEntry
  cleanupRuns : Nat
  acts : List Act
  deriving DecidableEq, Repr

/-- Embedding of `StartupManager.run`: the `try` body decides the exit
code and logs; the `finally` clause runs `cleanup` exactly once on every
path out of the body, on whatever handles exist at that point. -/
def run (env : RunEnv) : RunRes :=
  { exit := runExitCode env,
    logs := runLogs env,
    cleanupRuns := 1,
    acts := cleanup (rsHandle env) (mainHandle env) }

/-- Scans an action trace and checks that no occurrence of `k` comes
before the first occurrence of `pre`: `false` exactly when some `k` is
issued with no earlier `pre` in the trace. -/
def killPrecededBy (pre k : Act) : List Act → Bool
  | [] => true
  | a :: rest => if a = k then false else if a = pre then true else killPrecededBy pre k rest

/-- Every forced kill of handle `h` in the trace is preceded by a
graceful interrupt signal to the same handle. -/
def gracefulBeforeKill (h : HandleId) (l : List Act) : Bool :=
  killPrecededBy (Act.sigint h) (Act.kill h) l

/-- Every forced kill of handle `h` in the trace is preceded by the
bounded wait for voluntary exit of the same handle. -/
def waitBeforeKill (h : HandleId) (l : List Act) : Bool :=
  killPrecededBy (Act.awaitExit h TERM_WAIT) (Act.kill h) l

/-- Answers `true` iff the list of log lines contains an ERROR-level line. -/
def hasErrorLog (l : List LogEntry) : Bool :=
  l.any (fun e => e.level = "ERROR")

/-- Whether execution of `run` actually reaches phase `p` in environment
`env`, so that an interrupt or crash scheduled during `p` is really
delivered. -/
def reaches (env : RunEnv) : Phase → Bool
  | Phase.initLaunch => true
  | Phase.waitPhase => env.initLaunchOk
  | Phase.mainLaunch => env.initLaunchOk && env.waitExit = LoopExit.reached
  | Phase.monitor =>
    env.initLaunchOk && env.waitExit = LoopExit.reached && env.mainLaunchOk

/-- A concrete polling environment: the clock ticks one time unit per
iteration and every probe immediately reports state 5. -/
def EnvImmediate : LoopEnv :=
  ⟨fun i => (i : Int), fun _ => some "5", fun _ => true⟩

/-- A concrete polling environment in which 16 time units pass per
iteration (so every iteration after the first is stale), every probe
fails, and every re-launch succeeds. -/
def EnvAlwaysStale : LoopEnv :=
  ⟨fun i => 16 * (i : Int), fun _ => none, fun _ => true⟩

/-- A concrete polling environment in which 16 time units pass per
iteration, every probe fails, and every re-launch fails. -/
def EnvRelaunchFails : LoopEnv :=
  ⟨fun i => 16 * (i : Int), fun _ => none, fun _ => false⟩

/-- The value `self.last_successful_read_time` holds at the start of
iteration `i` of a run of the polling loop in which no restart has been
triggered: `E.clk 0` (the initialisation at loop entry) until some probe
succeeds, then the clock of the latest successful probe. -/
def lastReadTime (E : LoopEnv) : Nat → Int
  | 0 => E.clk 0
  | i + 1 => if (E.probe i).isSome then E.clk i else lastReadTime E i

end StartupManager

namespace StartupManager

/-- The loop `waitAux` is monotone in its fuel: a result reached with fuel `f` is
also reached with any larger fuel. -/
theorem waitAux_fuel_mono (E : LoopEnv) (target : String) :
    ∀ f f' i s r, f ≤ f' → waitAux E target f i s = some r →
      waitAux E target f' i s = some r := by
  intro f
  induction f with
  | zero => intro f' i s r _ h; simp [waitAux] at h
  | succ f ih =>
    intro f' i s r hle h
    match f', hle with
    | f' + 1, hle =>
      rw [waitAux] at h ⊢
      cases hout : (waitStep E target i s).out with
      | some e => rw [hout] at h; exact h
      | none =>
        rw [hout] at h
        exact ih f' (i + 1) _ r (Nat.succ_le_succ_iff.mp hle) h

/-- If the loop of `wait_for_state` returns `True` at iteration `j`, the
probe at iteration `j` yielded exactly the target value. -/
theorem waitAux_reached_probe (E : LoopEnv) (target : String) :
    ∀ f i s j s', waitAux E target f i s = some (LoopExit.reached, j, s') →
      E.probe j = some target := by
  intro f
  induction f with
  | zero => intro i s j s' h; simp [waitAux] at h
  | succ f ih =>
    intro i s j s' h
    rw [waitAux] at h
    unfold waitStep at h
    by_cases hd : STATE_CHECK_TIMEOUT ≤ E.clk i - s.startTime
    · simp only [hd, if_true] at h
      simp at h
    · simp only [hd, if_false] at h
      by_cases hs : check_state_read_timeout s.lastRead (E.clk i) = true
      · simp only [hs, if_true] at h
        by_cases hr : (restart_robot_state_launch
            (E.restartOk (s.restartCount + 1)) (E.clk i) s).1 = true
        · simp only [hr, if_true] at h
          exact ih _ _ _ _ h
        · simp only [Bool.not_eq_true] at hr
          simp only [hr, Bool.false_eq_true, if_false] at h
          simp at h
      · simp only [Bool.not_eq_true] at hs
        simp only [hs, Bool.false_eq_true, if_false] at h
        cases hp : E.probe i with
        | some v =>
          simp only [hp] at h
          by_cases hv : v = target
          · simp only [hv, if_true] at h
            simp at h
            rw [← h.1, hp, hv]
          · simp only [hv, if_false] at h
            exact ih _ _ _ _ h
        | none =>
          simp only [hp] at h
          exact ih _ _ _ _ h

/-- The check `check_state_read_timeout` answers `false` whenever the elapsed time
is within the threshold. -/
theorem check_timeout_false_of_le {t now : Int} (h : now - t ≤ STATE_READ_TIMEOUT) :
    check_state_read_timeout (some t) now = false := by
  simp only [check_state_read_timeout, STATE_READ_TIMEOUT] at h ⊢
  simp only [decide_eq_false_iff_not, not_lt]
  exact h

/-- Step characterization: when the overall deadline has elapsed the loop
exits with `deadline` without probing or restarting. -/
theorem waitStep_deadline (E : LoopEnv) (target : String) (i : Nat) (s : WaitSt)
    (h : STATE_CHECK_TIMEOUT ≤ E.clk i - s.startTime) :
    waitStep E target i s = ⟨some LoopExit.deadline, s, false, false⟩ := by
  unfold waitStep
  simp [h]

/-- Step characterization: staleness with attempts remaining and a
successful re-launch records one attempt, resets the liveness timestamp
and the deadline window, and continues without probing. -/
theorem waitStep_restart_ok (E : LoopEnv) (target : String) (i : Nat) (s : WaitSt)
    (h1 : ¬ STATE_CHECK_TIMEOUT ≤ E.clk i - s.startTime)
    (h2 : check_state_read_timeout s.lastRead (E.clk i) = true)
    (h3 : s.restartCount + 1 ≤ MAX_RESTART_ATTEMPTS)
    (h4 : E.restartOk (s.restartCount + 1) = true) :
    waitStep E target i s =
      ⟨none, ⟨E.clk i, some (E.clk i), s.restartCount + 1, 0⟩, false, true⟩ := by
  unfold waitStep restart_robot_state_launch
  simp [h1, h2, h4, Nat.not_lt.mpr h3]

/-- Step characterization: staleness with the attempt budget exhausted
exits with `restartFail`; the counter is still incremented but no launch
is attempted and no probe is issued. -/
theorem waitStep_restart_exhausted (E : LoopEnv) (target : String) (i : Nat) (s : WaitSt)
    (h1 : ¬ STATE_CHECK_TIMEOUT ≤ E.clk i - s.startTime)
    (h2 : check_state_read_timeout s.lastRead (E.clk i) = true)
    (h3 : MAX_RESTART_ATTEMPTS < s.restartCount + 1) :
    waitStep E target i s =
      ⟨some LoopExit.restartFail, { s with restartCount := s.restartCount + 1 },
        false, true⟩ := by
  unfold waitStep restart_robot_state_launch
  simp [h1, h2, h3]

/-- Step characterization: staleness with attempts remaining but a failed
re-launch exits with `restartFail` after recording the one attempt. -/
theorem waitStep_restart_launch_fail (E : LoopEnv) (target : String) (i : Nat) (s : WaitSt)
    (h1 : ¬ STATE_CHECK_TIMEOUT ≤ E.clk i - s.startTime)
    (h2 : check_state_read_timeout s.lastRead (E.clk i) = true)
    (h3 : s.restartCount + 1 ≤ MAX_RESTART_ATTEMPTS)
    (h4 : E.restartOk (s.restartCount + 1) = false) :
    waitStep E target i s =
      ⟨some LoopExit.restartFail, { s with restartCount := s.restartCount + 1 },
        false, true⟩ := by
  unfold waitStep restart_robot_state_launch
  simp [h1, h2, h4, Nat.not_lt.mpr h3]

/-- Step characterization: no staleness and a probe returning the target
value exits with `reached`, after recording the read time. -/
theorem waitStep_probe_target (E : LoopEnv) (target : String) (i : Nat) (s : WaitSt)
    (h1 : ¬ STATE_CHECK_TIMEOUT ≤ E.clk i - s.startTime)
    (h2 : check_state_read_timeout s.lastRead (E.clk i) = false)
    (h3 : E.probe i = some target) :
    waitStep E target i s =
      ⟨some LoopExit.reached, { s with lastRead := some (E.clk i) }, true, false⟩ := by
  unfold waitStep
  simp [h1, h2, h3]

/-- Step characterization: no staleness and a probe returning a non-target
value records the read time, clears the failure counter and continues. -/
theorem waitStep_probe_other (E : LoopEnv) (target : String) (i : Nat) (s : WaitSt)
    (v : String)
    (h1 : ¬ STATE_CHECK_TIMEOUT ≤ E.clk i - s.startTime)
    (h2 : check_state_read_timeout s.lastRead (E.clk i) = false)
    (h3 : E.probe i = some v) (h4 : v ≠ target) :
    waitStep E target i s =
      ⟨none, { s with lastRead := some (E.clk i), consecFails := 0 }, true, false⟩ := by
  unfold waitStep
  simp [h1, h2, h3, h4]

/-- Step characterization: no staleness and a failed probe leaves the
liveness timestamp untouched, bumps the failure counter and continues. -/
theorem waitStep_probe_fail (E : LoopEnv) (target : String) (i : Nat) (s : WaitSt)
    (h1 : ¬ STATE_CHECK_TIMEOUT ≤ E.clk i - s.startTime)
    (h2 : check_state_read_timeout s.lastRead (E.clk i) = false)
    (h3 : E.probe i = none) :
    waitStep E target i s =
      ⟨none, { s with consecFails := s.consecFails + 1 }, true, false⟩ := by
  unfold waitStep
  simp [h1, h2, h3]

/-- Main induction for the readiness claim: from any iteration `i ≤ k` in
the canonical no-restart state, when the target first appears at iteration
`k`, the deadline never lapses up to `k`, and the staleness gap stays
within the threshold up to `k`, the loop returns `reached` at `k`. -/
theorem waitAux_first_reach (E : LoopEnv) (k : Nat)
    (hmono : ∀ i j : Nat, i ≤ j → E.clk i ≤ E.clk j)
    (hdead : E.clk k - E.clk 0 < STATE_CHECK_TIMEOUT)
    (hfresh : ∀ i, i ≤ k → E.clk i - lastReadTime E i ≤ STATE_READ_TIMEOUT)
    (hbefore : ∀ i, i < k → E.probe i ≠ some "5")
    (hk : E.probe k = some "5") :
    ∀ n i c, i + n = k →
      ∃ c', waitAux E "5" (n + 1) i ⟨E.clk 0, some (lastReadTime E i), 0, c⟩
        = some (LoopExit.reached, k, ⟨E.clk 0, some (E.clk k), 0, c'⟩) := by
  have hd : ∀ i, i ≤ k → ¬ STATE_CHECK_TIMEOUT ≤ E.clk i - E.clk 0 := by
    intro i hik
    have h1 := hmono i k hik
    omega
  intro n
  induction n with
  | zero =>
    intro i c hik
    have hik' : i = k := by omega
    subst hik'
    refine ⟨c, ?_⟩
    rw [waitAux,
      waitStep_probe_target E "5" i _ (hd i le_rfl)
        (check_timeout_false_of_le (hfresh i le_rfl)) hk]
  | succ n ih =>
    intro i c hik
    have hik' : i < k := by omega
    have h1 := hd i (le_of_lt hik')
    have h2 := check_timeout_false_of_le (hfresh i (le_of_lt hik'))
    cases hp : E.probe i with
    | some v =>
      have hv : v ≠ "5" := fun hv => hbefore i hik' (hv ▸ hp)
      have hlr : lastReadTime E (i + 1) = E.clk i := by
        simp [lastReadTime, hp]
      obtain ⟨c', H⟩ := ih (i + 1) 0 (by omega)
      rw [hlr] at H
      refine ⟨c', ?_⟩
      rw [waitAux, waitStep_probe_other E "5" i _ v h1 h2 hp hv]
      exact H
    | none =>
      have hlr : lastReadTime E (i + 1) = lastReadTime E i := by
        simp [lastReadTime, hp]
      obtain ⟨c', H⟩ := ih (i + 1) (c + 1) (by omega)
      rw [hlr] at H
      refine ⟨c', ?_⟩
      rw [waitAux, waitStep_probe_fail E "5" i _ h1 h2 hp]
      exact H

/-- C1: for every sequence of probe results in which the target readiness
value `'5'` first appears at iteration `k`, where the 600-time-unit
deadline has not elapsed at any check up to `k` and no staleness gap up to
`k` exceeds the 15-time-unit threshold, `wait_for_state` returns `True`
(exit `reached`) exactly at iteration `k`, the first iteration whose probe
yields the target — and, unconditionally, the loop only ever returns
`True` at an iteration whose probe yielded the target value. -/
theorem C1_wait_returns_at_first_target (E : LoopEnv) (k fuel : Nat)
    (hmono : ∀ i j : Nat, i ≤ j → E.clk i ≤ E.clk j)
    (hdead : E.clk k - E.clk 0 < STATE_CHECK_TIMEOUT)
    (hfresh : ∀ i, i ≤ k → E.clk i - lastReadTime E i ≤ STATE_READ_TIMEOUT)
    (hbefore : ∀ i, i < k → E.probe i ≠ some "5")
    (hk : E.probe k = some "5")
    (hfuel : k < fuel) :
    (∃ s', wait_for_state E "5" fuel = some (LoopExit.reached, k, s')) ∧
    (∀ f j s j' s', waitAux E "5" f j s = some (LoopExit.reached, j', s') →
      E.probe j' = some "5") := by
  constructor
  · obtain ⟨c', H⟩ :=
      waitAux_first_reach E k hmono hdead hfresh hbefore hk k 0 0 (by omega)
    refine ⟨⟨E.clk 0, some (E.clk k), 0, c'⟩, ?_⟩
    unfold wait_for_state
    exact waitAux_fuel_mono E "5" (k + 1) fuel 0 _ _ hfuel H
  · intro f j s j' s' h
    exact waitAux_reached_probe E "5" f j s j' s' h

/-- One step from a state within the restart budget keeps the counter at
most one past the maximum, and keeps it within the maximum whenever the
loop continues. -/
theorem waitStep_rc_invariant (E : LoopEnv) (target : String) (i : Nat) (s : WaitSt)
    (h : s.restartCount ≤ MAX_RESTART_ATTEMPTS) :
    (waitStep E target i s).next.restartCount ≤ MAX_RESTART_ATTEMPTS + 1 ∧
    ((waitStep E target i s).out = none →
      (waitStep E target i s).next.restartCount ≤ MAX_RESTART_ATTEMPTS) := by
  by_cases hd : STATE_CHECK_TIMEOUT ≤ E.clk i - s.startTime
  · rw [waitStep_deadline E target i s hd]
    refine ⟨?_, ?_⟩ <;> (simp; try omega)
  · by_cases hs : check_state_read_timeout s.lastRead (E.clk i) = true
    · by_cases h3 : s.restartCount + 1 ≤ MAX_RESTART_ATTEMPTS
      · cases h4 : E.restartOk (s.restartCount + 1) with
        | true =>
          rw [waitStep_restart_ok E target i s hd hs h3 h4]
          refine ⟨?_, ?_⟩ <;> (simp; try omega)
        | false =>
          rw [waitStep_restart_launch_fail E target i s hd hs h3 h4]
          refine ⟨?_, ?_⟩ <;> (simp; try omega)
      · rw [waitStep_restart_exhausted E target i s hd hs (Nat.not_le.mp h3)]
        refine ⟨?_, ?_⟩ <;> (simp; try omega)
    · rw [Bool.not_eq_true] at hs
      cases hp : E.probe i with
      | some v =>
        by_cases hv : v = target
        · rw [waitStep_probe_target E target i s hd hs (hv ▸ hp)]
          refine ⟨?_, ?_⟩ <;> (simp; try omega)
        · rw [waitStep_probe_other E target i s v hd hs hp hv]
          refine ⟨?_, ?_⟩ <;> (simp; try omega)
      | none =>
        rw [waitStep_probe_fail E target i s hd hs hp]
        refine ⟨?_, ?_⟩ <;> (simp; try omega)

/-- A run of the loop started within the restart budget ends in a state
whose counter is at most one past the maximum. -/
theorem waitAux_rc_le (E : LoopEnv) (target : String) :
    ∀ f i s e j s', s.restartCount ≤ MAX_RESTART_ATTEMPTS →
      waitAux E target f i s = some (e, j, s') →
      s'.restartCount ≤ MAX_RESTART_ATTEMPTS + 1 := by
  intro f
  induction f with
  | zero => intro i s e j s' _ h; simp [waitAux] at h
  | succ f ih =>
    intro i s e j s' hs h
    rw [waitAux] at h
    cases hout : (waitStep E target i s).out with
    | some e' =>
      rw [hout] at h
      simp only [Option.some.injEq, Prod.mk.injEq] at h
      rw [← h.2.2]
      exact (waitStep_rc_invariant E target i s hs).1
    | none =>
      rw [hout] at h
      exact ih (i + 1) _ e j s' ((waitStep_rc_invariant E target i s hs).2 hout) h

/-- C2 counterexample: the restart counter does exceed
`MAX_RESTART_ATTEMPTS = 3` during a run. In the environment where every
iteration is stale and the first three re-launches succeed, the fourth
restart call increments the counter to 4 before refusing, and the loop
returns with `restart_count = 4 > 3`. -/
theorem C2_counterexample :
    wait_for_state EnvAlwaysStale "5" 10 =
      some (LoopExit.restartFail, 4, ⟨48, some 48, 4, 0⟩) ∧
    MAX_RESTART_ATTEMPTS < (⟨48, some 48, 4, 0⟩ : WaitSt).restartCount := by
  constructor
  · rfl
  · decide

/-- C2 (amended): the counter reaches at most `MAX_RESTART_ATTEMPTS + 1 = 4`
during a run — every state from which the loop continues satisfies
`restart_count ≤ 3`, one step from such a state keeps the counter `≤ 4`,
and the final state of any run started in budget has counter `≤ 4` — and
once the counter has reached the maximum, every subsequent call to
`restart_robot_state_launch` returns `False` without launching anything
(it still performs its unconditional increment first, and in a run the
first such refusing call aborts the loop, so the counter stops at 4). -/
theorem C2_restart_budget (E : LoopEnv) (target : String) :
    (∀ i s, s.restartCount ≤ MAX_RESTART_ATTEMPTS →
      (waitStep E target i s).next.restartCount ≤ MAX_RESTART_ATTEMPTS + 1 ∧
      ((waitStep E target i s).out = none →
        (waitStep E target i s).next.restartCount ≤ MAX_RESTART_ATTEMPTS)) ∧
    (∀ f i s e j s', s.restartCount ≤ MAX_RESTART_ATTEMPTS →
      waitAux E target f i s = some (e, j, s') →
      s'.restartCount ≤ MAX_RESTART_ATTEMPTS + 1) ∧
    (∀ (ok : Bool) (now : Int) (s : WaitSt),
      MAX_RESTART_ATTEMPTS ≤ s.restartCount →
      restart_robot_state_launch ok now s =
        (false, false, { s with restartCount := s.restartCount + 1 })) := by
  refine ⟨fun i s h => waitStep_rc_invariant E target i s h,
    waitAux_rc_le E target, fun ok now s h => ?_⟩
  unfold restart_robot_state_launch
  have : MAX_RESTART_ATTEMPTS < s.restartCount + 1 := by omega
  simp [this]

/-- Witness for C2 (amended): a call with the counter at the maximum
returns `False`, launches nothing, and increments the counter. -/
theorem C2_restart_budget_witness :
    restart_robot_state_launch true 0 ⟨0, none, 3, 0⟩ = (false, false, ⟨0, none, 4, 0⟩) :=
  (C2_restart_budget EnvAlwaysStale "5").2.2 true 0 ⟨0, none, 3, 0⟩ (by decide)

/-- C3 counterexample: when every staleness-triggered re-launch fails, the
loop aborts after ONE failed restart attempt, not three: in the
environment where every probe fails, every iteration after the first is
stale and every re-launch fails, the run returns `restartFail` at
iteration 1 with `restart_count = 1`. -/
theorem C3_counterexample :
    wait_for_state EnvRelaunchFails "5" 5 =
      some (LoopExit.restartFail, 1, ⟨0, some 0, 1, 1⟩) ∧
    (⟨0, some 0, 1, 1⟩ : WaitSt).restartCount ≠ 3 := by
  constructor
  · rfl
  · decide

/-- C3 (amended): if the re-launch of the first staleness-triggered
restart attempt fails, the supervisor aborts immediately after that single
failed attempt (exit `restartFail` with `restart_count = 1`; a second or
third attempt never happens), and the run then exits with code 1. -/
theorem C3_first_relaunch_failure_aborts (E : LoopEnv) (target : String)
    (i : Nat) (s : WaitSt)
    (h1 : ¬ STATE_CHECK_TIMEOUT ≤ E.clk i - s.startTime)
    (h2 : check_state_read_timeout s.lastRead (E.clk i) = true)
    (h3 : s.restartCount = 0)
    (h4 : E.restartOk 1 = false) :
    (waitStep E target i s).out = some LoopExit.restartFail ∧
    (waitStep E target i s).next.restartCount = 1 ∧
    (∀ env : RunEnv, env.interrupt = none → env.crash = none →
      env.initLaunchOk = true → env.waitExit = LoopExit.restartFail →
      (run env).exit = 1) := by
  rw [waitStep_restart_launch_fail E target i s h1 h2 (by rw [h3]; decide)
    (by rw [h3]; exact h4)]
  refine ⟨rfl, by simp [h3], ?_⟩
  intro env hi hc hil hw
  simp [run, runExitCode, runBody, hi, hc, hil, hw]

/-- Witness for C3 (amended): in the concrete failing-re-launch
environment, iteration 1 is stale, the single restart attempt fails and
the loop aborts; a run whose wait phase ends that way exits 1. -/
theorem C3_first_relaunch_failure_aborts_witness :
    (waitStep EnvRelaunchFails "5" 1 ⟨0, some 0, 0, 1⟩).out =
      some LoopExit.restartFail ∧
    (waitStep EnvRelaunchFails "5" 1 ⟨0, some 0, 0, 1⟩).next.restartCount = 1 ∧
    (∀ env : RunEnv, env.interrupt = none → env.crash = none →
      env.initLaunchOk = true → env.waitExit = LoopExit.restartFail →
      (run env).exit = 1) :=
  C3_first_relaunch_failure_aborts EnvRelaunchFails "5" 1 ⟨0, some 0, 0, 1⟩
    (by decide) (by decide) rfl rfl

/-- C4: the staleness check returns `False` for every query made while no
success timestamp is recorded, and once a success timestamp `t` is
recorded it returns `True` at time `now` iff `now - t` strictly exceeds
the 15-time-unit threshold. -/
theorem C4_staleness_check (t now : Int) :
    STATE_READ_TIMEOUT = 15 ∧
    (∀ m : Int, check_state_read_timeout none m = false) ∧
    (check_state_read_timeout (some t) now = true ↔ 15 < now - t) := by
  refine ⟨rfl, fun m => rfl, ?_⟩
  simp [check_state_read_timeout, STATE_READ_TIMEOUT]

/-- C5: in any in-deadline iteration, the staleness check precedes the
probe — a stale iteration records exactly one restart attempt and issues
no probe, a fresh iteration issues a probe and records no attempt, and a
failed probe never updates the liveness timestamp; moreover a completed
(successful) restart resets the liveness timestamp to the current time, so
the immediately following iteration (reached within the threshold and the
fresh deadline window) probes instead of restarting again. -/
theorem C5_staleness_restart_probe_order (E : LoopEnv) (target : String)
    (i : Nat) (s : WaitSt)
    (h1 : ¬ STATE_CHECK_TIMEOUT ≤ E.clk i - s.startTime) :
    (check_state_read_timeout s.lastRead (E.clk i) = true →
      (waitStep E target i s).probed = false ∧
      (waitStep E target i s).restarted = true ∧
      (waitStep E target i s).next.restartCount = s.restartCount + 1) ∧
    (check_state_read_timeout s.lastRead (E.clk i) = false →
      (waitStep E target i s).probed = true ∧
      (waitStep E target i s).restarted = false ∧
      (waitStep E target i s).next.restartCount = s.restartCount ∧
      (E.probe i = none →
        (waitStep E target i s).next.lastRead = s.lastRead)) ∧
    (check_state_read_timeout s.lastRead (E.clk i) = true →
      s.restartCount + 1 ≤ MAX_RESTART_ATTEMPTS →
      E.restartOk (s.restartCount + 1) = true →
      (waitStep E target i s).out = none ∧
      (waitStep E target i s).next.lastRead = some (E.clk i) ∧
      (E.clk (i + 1) - E.clk i ≤ STATE_READ_TIMEOUT →
        ¬ STATE_CHECK_TIMEOUT ≤ E.clk (i + 1) - (waitStep E target i s).next.startTime →
        (waitStep E target (i + 1) (waitStep E target i s).next).probed = true ∧
        (waitStep E target (i + 1) (waitStep E target i s).next).restarted = false)) := by
  refine ⟨?_, ?_, ?_⟩
  · intro h2
    by_cases h3 : s.restartCount + 1 ≤ MAX_RESTART_ATTEMPTS
    · cases h4 : E.restartOk (s.restartCount + 1) with
      | true => rw [waitStep_restart_ok E target i s h1 h2 h3 h4]; exact ⟨rfl, rfl, rfl⟩
      | false =>
        rw [waitStep_restart_launch_fail E target i s h1 h2 h3 h4]
        exact ⟨rfl, rfl, rfl⟩
    · rw [waitStep_restart_exhausted E target i s h1 h2 (Nat.not_le.mp h3)]
      exact ⟨rfl, rfl, rfl⟩
  · intro h2
    cases hp : E.probe i with
    | some v =>
      by_cases hv : v = target
      · rw [waitStep_probe_target E target i s h1 h2 (hv ▸ hp)]
        exact ⟨rfl, rfl, rfl, by simp [hp]⟩
      · rw [waitStep_probe_other E target i s v h1 h2 hp hv]
        exact ⟨rfl, rfl, rfl, by simp [hp]⟩
    | none =>
      rw [waitStep_probe_fail E target i s h1 h2 hp]
      exact ⟨rfl, rfl, rfl, fun _ => rfl⟩
  · intro h2 h3 h4
    rw [waitStep_restart_ok E target i s h1 h2 h3 h4]
    refine ⟨rfl, rfl, ?_⟩
    intro hgap hd'
    have h2' : check_state_read_timeout (some (E.clk i)) (E.clk (i + 1)) = false :=
      check_timeout_false_of_le hgap
    cases hp : E.probe (i + 1) with
    | some v =>
      by_cases hv : v = target
      · rw [waitStep_probe_target E target (i + 1) _ hd' h2' (hv ▸ hp)]
        exact ⟨rfl, rfl⟩
      · rw [waitStep_probe_other E target (i + 1) _ v hd' h2' hp hv]
        exact ⟨rfl, rfl⟩
    | none =>
      rw [waitStep_probe_fail E target (i + 1) _ hd' h2' hp]
      exact ⟨rfl, rfl⟩

/-- Witness for C5: concrete stale iteration in `EnvAlwaysStale` at
iteration 1. -/
theorem C5_witness :
    (check_state_read_timeout (some 0) (EnvAlwaysStale.clk 1) = true →
      (waitStep EnvAlwaysStale "5" 1 ⟨0, some 0, 0, 1⟩).probed = false ∧
      (waitStep EnvAlwaysStale "5" 1 ⟨0, some 0, 0, 1⟩).restarted = true ∧
      (waitStep EnvAlwaysStale "5" 1 ⟨0, some 0, 0, 1⟩).next.restartCount = 0 + 1) ∧
    (check_state_read_timeout (some 0) (EnvAlwaysStale.clk 1) = false →
      (waitStep EnvAlwaysStale "5" 1 ⟨0, some 0, 0, 1⟩).probed = true ∧
      (waitStep EnvAlwaysStale "5" 1 ⟨0, some 0, 0, 1⟩).restarted = false ∧
      (waitStep EnvAlwaysStale "5" 1 ⟨0, some 0, 0, 1⟩).next.restartCount = 0 ∧
      (EnvAlwaysStale.probe 1 = none →
        (waitStep EnvAlwaysStale "5" 1 ⟨0, some 0, 0, 1⟩).next.lastRead = some 0)) ∧
    (check_state_read_timeout (some 0) (EnvAlwaysStale.clk 1) = true →
      0 + 1 ≤ MAX_RESTART_ATTEMPTS →
      EnvAlwaysStale.restartOk (0 + 1) = true →
      (waitStep EnvAlwaysStale "5" 1 ⟨0, some 0, 0, 1⟩).out = none ∧
      (waitStep EnvAlwaysStale "5" 1 ⟨0, some 0, 0, 1⟩).next.lastRead =
        some (EnvAlwaysStale.clk 1) ∧
      (EnvAlwaysStale.clk 2 - EnvAlwaysStale.clk 1 ≤ STATE_READ_TIMEOUT →
        ¬ STATE_CHECK_TIMEOUT ≤ EnvAlwaysStale.clk 2 -
          (waitStep EnvAlwaysStale "5" 1 ⟨0, some 0, 0, 1⟩).next.startTime →
        (waitStep EnvAlwaysStale "5" 2
          (waitStep EnvAlwaysStale "5" 1 ⟨0, some 0, 0, 1⟩).next).probed = true ∧
        (waitStep EnvAlwaysStale "5" 2
          (waitStep EnvAlwaysStale "5" 1 ⟨0, some 0, 0, 1⟩).next).restarted = false)) :=
  C5_staleness_restart_probe_order EnvAlwaysStale "5" 1 ⟨0, some 0, 0, 1⟩ (by decide)

/-- C6: a successful staleness-triggered restart resets the overall
readiness deadline — the loop continues and the deadline reference point
of the following iterations is the restart time itself, so the remaining
budget is again the full `STATE_CHECK_TIMEOUT = 600` time units counted
from the restart, not the residue of the previous window. -/
theorem C6_restart_resets_deadline (E : LoopEnv) (target : String)
    (i : Nat) (s : WaitSt)
    (h1 : ¬ STATE_CHECK_TIMEOUT ≤ E.clk i - s.startTime)
    (h2 : check_state_read_timeout s.lastRead (E.clk i) = true)
    (h3 : s.restartCount + 1 ≤ MAX_RESTART_ATTEMPTS)
    (h4 : E.restartOk (s.restartCount + 1) = true) :
    (waitStep E target i s).out = none ∧
    (waitStep E target i s).next.startTime = E.clk i ∧
    STATE_CHECK_TIMEOUT = 600 ∧
    (∀ t' : Int,
      STATE_CHECK_TIMEOUT ≤ t' - (waitStep E target i s).next.startTime ↔
      600 ≤ t' - E.clk i) := by
  rw [waitStep_restart_ok E target i s h1 h2 h3 h4]
  exact ⟨rfl, rfl, rfl, fun t' => Iff.rfl⟩

/-- Witness for C6: concrete stale iteration with a successful re-launch
in `EnvAlwaysStale`. -/
theorem C6_witness :
    (waitStep EnvAlwaysStale "5" 1 ⟨0, some 0, 0, 1⟩).out = none ∧
    (waitStep EnvAlwaysStale "5" 1 ⟨0, some 0, 0, 1⟩).next.startTime =
      EnvAlwaysStale.clk 1 ∧
    STATE_CHECK_TIMEOUT = 600 ∧
    (∀ t' : Int,
      STATE_CHECK_TIMEOUT ≤ t' -
        (waitStep EnvAlwaysStale "5" 1 ⟨0, some 0, 0, 1⟩).next.startTime ↔
      600 ≤ t' - EnvAlwaysStale.clk 1) :=
  C6_restart_resets_deadline EnvAlwaysStale "5" 1 ⟨0, some 0, 0, 1⟩
    (by decide) (by decide) (by decide) rfl

/-- Splitting with `pySplit` never returns the empty list of pieces. -/
theorem pySplit_ne_nil (sep : Char) : ∀ l : List Char, pySplit sep l ≠ [] := by
  intro l
  induction l with
  | nil => simp [pySplit]
  | cons c rest ih =>
    rw [pySplit]
    cases h : pySplit sep rest with
    | nil => exact absurd h ih
    | cons hd tl =>
      by_cases hc : c = sep
      · simp [hc]
      · simp [hc]

/-- Splitting a list whose first separator occurrence is between `a` and
`b` yields `a` as the first piece, followed by the pieces of `b`. -/
theorem pySplit_append (sep : Char) :
    ∀ a b : List Char, (∀ c ∈ a, c ≠ sep) →
      pySplit sep (a ++ sep :: b) = a :: pySplit sep b := by
  intro a
  induction a with
  | nil =>
    intro b _
    rw [List.nil_append, pySplit]
    cases h : pySplit sep b with
    | nil => exact absurd h (pySplit_ne_nil sep b)
    | cons hd tl => simp
  | cons c a ih =>
    intro b hc
    rw [List.cons_append, pySplit, ih b (fun x hx => hc x (List.mem_cons_of_mem c hx))]
    simp [hc c (List.mem_cons_self c a)]

/-- The first piece of `pySplit` is the longest separator-free prefix. -/
theorem pySplit_getD_zero (sep : Char) :
    ∀ l : List Char, (pySplit sep l).getD 0 [] = l.takeWhile (fun c => c != sep) := by
  intro l
  induction l with
  | nil => simp [pySplit, List.takeWhile]
  | cons c rest ih =>
    rw [pySplit]
    cases h : pySplit sep rest with
    | nil => exact absurd h (pySplit_ne_nil sep rest)
    | cons hd tl =>
      rw [h] at ih
      have ih' : hd = rest.takeWhile (fun x => x != sep) := by
        simpa [List.getD] using ih
      by_cases hc : c = sep
      · simp [hc, List.takeWhile_cons]
      · simp [hc, List.takeWhile_cons, ih']

/-- A list is a prefix of itself followed by anything. -/
theorem isPrefixOf_self_append (a b : List Char) : a.isPrefixOf (a ++ b) = true := by
  induction a with
  | nil => simp [List.isPrefixOf]
  | cons c a ih => simp [List.isPrefixOf, ih]

/-- C9: for every probe output whose first line starting with `state:` is
`state:` followed by `rest`, the extracted field value is the text of
`rest` up to (strictly before) the next colon — i.e. the text strictly
between the first and second colon of that line, or all of it when there
is no second colon — stripped of surrounding whitespace. A value that
itself contains a colon is truncated at that colon. -/
theorem C9_value_between_colons (pre : List (List Char)) (rest : List Char)
    (post : List (List Char))
    (hpre : ∀ l ∈ pre, ("state:".data).isPrefixOf l = false) :
    parse_state_lines (pre ++ ("state:".data ++ rest) :: post) =
      some (pyStrip (rest.takeWhile (fun c => c != ':'))) := by
  induction pre with
  | nil =>
    rw [List.nil_append, parse_state_lines,
      if_pos (isPrefixOf_self_append ("state:".data) rest)]
    have h1 : ("state:".data ++ rest) = "state".data ++ (':' :: rest) := rfl
    have h2 : ∀ c ∈ "state".data, c ≠ ':' := by decide
    rw [h1, pySplit_append ':' "state".data rest h2]
    have h3 : ("state".data :: pySplit ':' rest).getD 1 [] =
        (pySplit ':' rest).getD 0 [] := by
      simp [List.getD]
    rw [h3, pySplit_getD_zero ':' rest]
  | cons l pre ih =>
    rw [List.cons_append, parse_state_lines, hpre l (List.mem_cons_self l pre)]
    simp only [Bool.false_eq_true, if_false]
    exact ih (fun x hx => hpre x (List.mem_cons_of_mem l hx))

/-- Witness for C9: the output lines `header`, `state: a:b`, `x` yield the
value between the first and second colon of the `state:` line. -/
theorem C9_witness :
    parse_state_lines
        (["header".data] ++ ("state:".data ++ " a:b".data) :: ["x".data]) =
      some (pyStrip ((" a:b".data).takeWhile (fun c => c != ':'))) :=
  C9_value_between_colons ["header".data] (" a:b".data) ["x".data] (by decide)

/-- C7: `run` returns exit status 1 on every abort path — failed initial
subsystem launch, readiness-loop failure (deadline timeout or exhausted /
failed restart), failed main launch, and unexpected internal error — each
with an ERROR-level log line emitted before the return; and it returns
exit status 0 when the monitoring phase is reached and ends either by a
child exit or by an interrupt. -/
theorem C7_run_exit_codes (env : RunEnv) :
    (env.interrupt = none → env.crash = none →
      ((env.initLaunchOk = false →
        (run env).exit = 1 ∧ hasErrorLog (run env).logs = true) ∧
       (env.initLaunchOk = true → env.waitExit ≠ LoopExit.reached →
        (run env).exit = 1 ∧ hasErrorLog (run env).logs = true) ∧
       (env.initLaunchOk = true → env.waitExit = LoopExit.reached →
        env.mainLaunchOk = false →
        (run env).exit = 1 ∧ hasErrorLog (run env).logs = true) ∧
       (env.initLaunchOk = true → env.waitExit = LoopExit.reached →
        env.mainLaunchOk = true → (run env).exit = 0))) ∧
    (env.interrupt = none → ∀ p, env.crash = some p → reaches env p = true →
      (run env).exit = 1 ∧ hasErrorLog (run env).logs = true) ∧
    (env.crash = none → env.interrupt = some Phase.monitor →
      reaches env Phase.monitor = true → (run env).exit = 0) := by
  obtain ⟨il, we, ml, it, cr, rg, mg⟩ := env
  refine ⟨?_, ?_, ?_⟩
  · rintro rfl rfl
    refine ⟨?_, ?_, ?_, ?_⟩
    · rintro rfl
      simp [run, runExitCode, runBody, runLogs, hasErrorLog]
    · rintro rfl hwe
      cases we <;> simp_all [run, runExitCode, runBody, runLogs, hasErrorLog]
    · rintro rfl rfl rfl
      simp [run, runExitCode, runBody, runLogs, hasErrorLog]
    · rintro rfl rfl rfl
      simp [run, runExitCode, runBody, runLogs]
  · rintro rfl p rfl hr
    cases p <;> cases il <;> cases ml <;> cases we <;>
      simp_all [run, runExitCode, runBody, runLogs, hasErrorLog, reaches]
  · rintro rfl rfl hr
    cases il <;> cases ml <;> cases we <;>
      simp_all [run, runExitCode, runBody, runLogs, reaches]

/-- Witness for C7: a run whose initial subsystem launch fails exits 1
with an ERROR log line. -/
theorem C7_witness :
    (run ⟨false, LoopExit.deadline, false, none, none, true, true⟩).exit = 1 ∧
    hasErrorLog
      (run ⟨false, LoopExit.deadline, false, none, none, true, true⟩).logs = true :=
  ((C7_run_exit_codes ⟨false, LoopExit.deadline, false, none, none, true, true⟩).1
    rfl rfl).1 rfl

/-- C8: on every exit path of `run` the cleanup sequence executes exactly
once on the handles existing at that point; cleanup sends the graceful
interrupt signal and performs the bounded 5-time-unit wait for every
still-live owned handle; every forced kill of a handle is preceded in the
action trace by a graceful signal and by the bounded wait to that same
handle; and a kill only happens when the graceful wait failed. -/
theorem C8_cleanup_graceful_before_kill :
    (∀ env : RunEnv, (run env).cleanupRuns = 1) ∧
    (∀ env : RunEnv, (run env).acts = cleanup (rsHandle env) (mainHandle env)) ∧
    (∀ rs mp : Option Bool, ∀ g : Bool,
      (rs = some g →
        Act.sigint HandleId.robotState ∈ cleanup rs mp ∧
        Act.awaitExit HandleId.robotState TERM_WAIT ∈ cleanup rs mp) ∧
      (mp = some g →
        Act.sigint HandleId.mainLaunch ∈ cleanup rs mp ∧
        Act.awaitExit HandleId.mainLaunch TERM_WAIT ∈ cleanup rs mp)) ∧
    (∀ rs mp : Option Bool, ∀ h : HandleId,
      gracefulBeforeKill h (cleanup rs mp) = true ∧
      waitBeforeKill h (cleanup rs mp) = true) ∧
    (∀ rs mp : Option Bool,
      (Act.kill HandleId.robotState ∈ cleanup rs mp → rs = some false) ∧
      (Act.kill HandleId.mainLaunch ∈ cleanup rs mp → mp = some false)) := by
  refine ⟨fun env => rfl, fun env => rfl, ?_, ?_, ?_⟩ <;> decide

/-- Witness for C8: a live subsystem handle receives the graceful signal
and the bounded wait during cleanup. -/
theorem C8_witness :
    Act.sigint HandleId.robotState ∈ cleanup (some false) none ∧
    Act.awaitExit HandleId.robotState TERM_WAIT ∈ cleanup (some false) none :=
  (C8_cleanup_graceful_before_kill.2.2.1 (some false) none false).1 rfl

/-- C10: a `KeyboardInterrupt` delivered during any phase `run` actually
reaches — including the readiness polling loop, before the main process
was ever launched — makes `run` return exit status 0 after the (single)
cleanup; it never produces the failure exit status 1. -/
theorem C10_interrupt_exits_zero (env : RunEnv) (p : Phase)
    (hc : env.crash = none) (hi : env.interrupt = some p)
    (hr : reaches env p = true) :
    (run env).exit = 0 ∧ (run env).cleanupRuns = 1 ∧ (run env).exit ≠ 1 := by
  obtain ⟨il, we, ml, it, cr, rg, mg⟩ := env
  subst hc
  subst hi
  cases p <;> simp_all [run, runExitCode, runBody, reaches]

/-- Witness for C10: an interrupt during the readiness polling loop of a
run whose wait phase would otherwise time out still exits 0. -/
theorem C10_witness :
    (run ⟨true, LoopExit.deadline, false, some Phase.waitPhase, none,
      true, true⟩).exit = 0 ∧
    (run ⟨true, LoopExit.deadline, false, some Phase.waitPhase, none,
      true, true⟩).cleanupRuns = 1 ∧
    (run ⟨true, LoopExit.deadline, false, some Phase.waitPhase, none,
      true, true⟩).exit ≠ 1 :=
  C10_interrupt_exits_zero
    ⟨true, LoopExit.deadline, false, some Phase.waitPhase, none, true, true⟩
    Phase.waitPhase rfl rfl rfl

/-- Witness for C1: in the environment whose probes all answer `5`
immediately, the loop returns `reached` at iteration 0. -/
theorem C1_witness :
    (∃ s', wait_for_state EnvImmediate "5" 1 = some (LoopExit.reached, 0, s')) ∧
    (∀ f j s j' s',
      waitAux EnvImmediate "5" f j s = some (LoopExit.reached, j', s') →
      EnvImmediate.probe j' = some "5") :=
  C1_wait_returns_at_first_target EnvImmediate 0 1
    (by intro i j h; show (i : Int) ≤ (j : Int); exact_mod_cast h)
    (by decide)
    (by intro i hi; rw [Nat.le_zero.mp hi]; decide)
    (by intro i hi; exact absurd hi (Nat.not_lt_zero i))
    rfl
    (by decide)

end StartupManager
